import Mathlib

/-!
# SixDOFConstraint settings and CharacterController::move

A shallow embedding of

* `Jolt/Physics/Constraints/SixDOFConstraint.h` (the inline member functions of
  `SixDOFConstraintSettings` and `SixDOFConstraint`), and
* `runtime/function/controller/character_controller.cpp` (`CharacterController::move`).

Single precision values are modelled bit-exactly by `F32`, with the IEEE-754 comparison
operators and the four arithmetic operators in round-to-nearest-even, each operation
rounded on its own (no fused multiply-add).  Code that computes is written over an
arithmetic `Arith α`, so that the same translation of the source is read in the
arithmetic of the program (`binary32`) and, where the specification speaks of exact
arithmetic, in exact rational arithmetic (`rational`).
-/

/-! ## IEEE-754 binary32 values: storage and comparison -/

/-- A binary32 value given by its three bit fields (1 + 8 + 23 bits). -/
structure F32 where
  sign : Bool
  exponent : Fin 256
  mantissa : Fin 8388608
deriving DecidableEq

namespace F32

/-- A value is a NaN when the exponent field is all ones and the mantissa is not zero. -/
def isNaN (f : F32) : Bool :=
  decide (f.exponent.val = 255) && decide (f.mantissa.val ≠ 0)

/-- The magnitude bits read as a natural number; monotone in the absolute value. -/
def magnitude (f : F32) : Nat :=
  f.exponent.val * 8388608 + f.mantissa.val

/-- An integer that orders the non-NaN values as IEEE-754 does (both zeros map to 0). -/
def key (f : F32) : Int :=
  if f.sign then -(f.magnitude : Int) else (f.magnitude : Int)

/-- The C++ operator `<` on floats. -/
def lt (a b : F32) : Bool :=
  !a.isNaN && !b.isNaN && decide (a.key < b.key)

/-- The C++ operator `<=` on floats. -/
def le (a b : F32) : Bool :=
  !a.isNaN && !b.isNaN && decide (a.key ≤ b.key)

/-- The C++ operator `==` on floats. -/
def feq (a b : F32) : Bool :=
  !a.isNaN && !b.isNaN && decide (a.key = b.key)

/-- The C++ operator `>` on floats. -/
def gt (a b : F32) : Bool := lt b a

/-- The C++ operator `>=` on floats. -/
def ge (a b : F32) : Bool := le b a

/-- Unary minus: flips the sign bit. -/
def neg (f : F32) : F32 := { f with sign := !f.sign }

/-- The literal `0.0f` (also the value of the literal `0` converted to float). -/
def zero : F32 := ⟨false, 0, 0⟩

/-- The literal `1.0f`. -/
def one : F32 := ⟨false, 127, 0⟩

/-! ### Arithmetic -/

/-- An infinity: exponent field all ones, mantissa zero. -/
def isInf (f : F32) : Bool :=
  decide (f.exponent.val = 255) && decide (f.mantissa.val = 0)

/-- A zero of either sign. -/
def isZero (f : F32) : Bool :=
  decide (f.exponent.val = 0) && decide (f.mantissa.val = 0)

/-- The NaN returned by an operation (which NaN an operation returns is not modelled:
every NaN result is this one). -/
def qNaN : F32 := ⟨false, 255, 4194304⟩

/-- The infinity of the given sign. -/
def infinity (sign : Bool) : F32 := ⟨sign, 255, 0⟩

/-- The zero of the given sign. -/
def signedZero (sign : Bool) : F32 := ⟨sign, 0, 0⟩

/-- The significand of a finite value as an integer (with the hidden bit of a normal
value). -/
def significand (f : F32) : Nat :=
  if f.exponent.val = 0 then f.mantissa.val else 8388608 + f.mantissa.val

/-- The exponent of the last significand bit: a finite value is
`± significand * 2 ^ scale`. -/
def scale (f : F32) : Int :=
  if f.exponent.val = 0 then -149 else (f.exponent.val : Int) - 150

/-- The value with the given sign and the 31 magnitude bits `bits`. -/
def ofBits (sign : Bool) (bits : Nat) : F32 :=
  ⟨sign, ⟨bits / 8388608 % 256, Nat.mod_lt _ (by decide)⟩,
    ⟨bits % 8388608, Nat.mod_lt _ (by decide)⟩⟩

/-- The value with the 32-bit pattern `w`. -/
def ofWord (w : Nat) : F32 := ofBits (decide (2147483648 ≤ w % 4294967296)) (w % 2147483648)

/-- The position of the leading one bit of `m` (0 for `m < 2`), found in at most `fuel`
halvings. -/
def ilog2 : Nat → Nat → Nat
  | 0, _ => 0
  | fuel + 1, m => if m < 2 then 0 else ilog2 fuel (m / 2) + 1

/-- The quotient `m / 2 ^ sh` rounded to the nearest integer, ties to even. -/
def roundShift (m sh : Nat) : Nat :=
  if 2 ^ sh < 2 * (m % 2 ^ sh) ∨ (2 * (m % 2 ^ sh) = 2 ^ sh ∧ m / 2 ^ sh % 2 = 1)
  then m / 2 ^ sh + 1 else m / 2 ^ sh

/-- The binary32 value nearest to `± m * 2 ^ e` for `0 < m < 2 ^ 512` (round to nearest,
ties to even; overflow gives an infinity, underflow a subnormal or a zero). -/
def round (sign : Bool) (m : Nat) (e : Int) : F32 :=
  let q : Int := max ((ilog2 512 m : Int) + e - 23) (-149)
  let mant : Nat := if q ≤ e then m * 2 ^ (e - q).toNat else roundShift m (q - e).toNat
  let bits : Nat := (q + 149).toNat * 8388608 + mant
  if 2139095040 ≤ bits then infinity sign else ofBits sign bits

/-- The C++ operator `*` on floats. -/
def mul (a b : F32) : F32 :=
  if a.isNaN || b.isNaN then qNaN
  else if a.isInf || b.isInf then
    (if a.isZero || b.isZero then qNaN else infinity (a.sign != b.sign))
  else if a.isZero || b.isZero then signedZero (a.sign != b.sign)
  else round (a.sign != b.sign) (a.significand * b.significand) (a.scale + b.scale)

/-- The significand of a finite value as a signed integer on the scale `e`, for `e` not
above the scale of the value. -/
def signedAt (f : F32) (e : Int) : Int :=
  if f.sign then -((f.significand * 2 ^ (f.scale - e).toNat : Nat) : Int)
  else ((f.significand * 2 ^ (f.scale - e).toNat : Nat) : Int)

/-- The C++ operator `+` on floats. -/
def add (a b : F32) : F32 :=
  if a.isNaN || b.isNaN then qNaN
  else if a.isInf then (if b.isInf && (a.sign != b.sign) then qNaN else a)
  else if b.isInf then b
  else if a.isZero && b.isZero then signedZero (a.sign && b.sign)
  else if a.isZero then b
  else if b.isZero then a
  else if a.signedAt (min a.scale b.scale) + b.signedAt (min a.scale b.scale) = 0 then zero
  else round (decide (a.signedAt (min a.scale b.scale) + b.signedAt (min a.scale b.scale) < 0))
    (a.signedAt (min a.scale b.scale) + b.signedAt (min a.scale b.scale)).natAbs
    (min a.scale b.scale)

/-- The C++ operator `-` on floats. -/
def sub (a b : F32) : F32 := add a (neg b)

/-- The C++ operator `/` on floats. -/
def div (a b : F32) : F32 :=
  if a.isNaN || b.isNaN then qNaN
  else if a.isInf then (if b.isInf then qNaN else infinity (a.sign != b.sign))
  else if b.isInf then signedZero (a.sign != b.sign)
  else if b.isZero then (if a.isZero then qNaN else infinity (a.sign != b.sign))
  else if a.isZero then signedZero (a.sign != b.sign)
  else
    round (a.sign != b.sign)
      (2 * (a.significand * 2 ^ 50 / b.significand)
        + (if a.significand * 2 ^ 50 % b.significand = 0 then 0 else 1))
      (a.scale - b.scale - 51)

/-- The double literal `1.1` converted to float: bit pattern `0x3F8CCCCD`, the value
`9227469 / 8388608`. -/
def float_1_1 : F32 := ⟨false, 127, 838861⟩

/-- Two values are the same number: the same bit pattern, two zeros, or two NaNs. -/
def same (a b : F32) : Bool :=
  decide (a = b) || (a.isZero && b.isZero) || (a.isNaN && b.isNaN)

end F32

/-- The constant `FLT_MAX` of `<cfloat>`: bit pattern `0x7F7FFFFF`. -/
def FLT_MAX : F32 := ⟨false, 254, 8388607⟩

/-! ## Arithmetics -/

/-- The scalar operations used by the code that computes, and the value of the literals
`0`, `1` and `1.1` as an argument of scalar type. -/
structure Arith (α : Type) where
  zero : α
  one : α
  lit_1_1 : α
  neg : α → α
  add : α → α → α
  sub : α → α → α
  mul : α → α → α
  div : α → α → α

/-- The arithmetic of the program: IEEE-754 binary32, round to nearest even. -/
def binary32 : Arith F32 where
  zero := F32.zero
  one := F32.one
  lit_1_1 := F32.float_1_1
  neg := F32.neg
  add := F32.add
  sub := F32.sub
  mul := F32.mul
  div := F32.div

/-- Exact arithmetic on rational numbers (every finite float is a rational number). -/
def rational : Arith ℚ where
  zero := 0
  one := 1
  lit_1_1 := 1.1
  neg := fun a => -a
  add := fun a b => a + b
  sub := fun a b => a - b
  mul := fun a b => a * b
  div := fun a b => a / b

namespace JPH

/-! ## SixDOFConstraintSettings -/

/-- The enum `SixDOFConstraintSettings::EAxis` without its count sentinel `Num`. -/
inductive EAxis where
  | TranslationX
  | TranslationY
  | TranslationZ
  | RotationX
  | RotationY
  | RotationZ
deriving DecidableEq, Repr

namespace EAxis

/-- The integer value of the enumerator. -/
def toNat : EAxis → Nat
  | TranslationX => 0
  | TranslationY => 1
  | TranslationZ => 2
  | RotationX => 3
  | RotationY => 4
  | RotationZ => 5

/-- The enumerator `Num`. -/
def Num : Nat := 6

end EAxis

/-- A C array `T arr[EAxis::Num]`, indexed by the axis. -/
abbrev AxisArray (α : Type) := EAxis → α

/-- The assignment `arr[inAxis] = v`. -/
def AxisArray.set {α : Type} (arr : AxisArray α) (inAxis : EAxis) (v : α) : AxisArray α :=
  fun j => if j = inAxis then v else arr j

/-- Modelled from the spec: the type `Vec3` is not part of the sources; three single
precision components. -/
structure Vec3 where
  x : F32
  y : F32
  z : F32
deriving DecidableEq

/-- Modelled from the spec: `Vec3::sZero()`. -/
def Vec3.sZero : Vec3 := ⟨F32.zero, F32.zero, F32.zero⟩

/-- Modelled from the spec: `Vec3::sAxisX()`. -/
def Vec3.sAxisX : Vec3 := ⟨F32.one, F32.zero, F32.zero⟩

/-- Modelled from the spec: `Vec3::sAxisY()`. -/
def Vec3.sAxisY : Vec3 := ⟨F32.zero, F32.one, F32.zero⟩

/-- Modelled from the spec: the constraint-space selector `EConstraintSpace` (world space
or a body's local space); the enum is not part of the sources. -/
inductive EConstraintSpace where
  | LocalToBodyCOM
  | WorldSpace
deriving DecidableEq, Repr

/-- The data members of `SixDOFConstraintSettings` (`mMotorSettings`, whose element type is
not part of the sources, is left out; no modelled member function touches it). -/
structure SixDOFConstraintSettings where
  mSpace : EConstraintSpace := EConstraintSpace.WorldSpace
  mPosition1 : Vec3 := Vec3.sZero
  mAxisX1 : Vec3 := Vec3.sAxisX
  mAxisY1 : Vec3 := Vec3.sAxisY
  mPosition2 : Vec3 := Vec3.sZero
  mAxisX2 : Vec3 := Vec3.sAxisX
  mAxisY2 : Vec3 := Vec3.sAxisY
  mMaxFriction : AxisArray F32 := fun _ => F32.zero
  mLimitMin : AxisArray F32 := fun _ => F32.neg FLT_MAX
  mLimitMax : AxisArray F32 := fun _ => FLT_MAX

namespace SixDOFConstraintSettings

/-- A default-constructed settings object (all default member initialisers). -/
def default : SixDOFConstraintSettings := {}

/-- Make axis free (unconstrained). -/
def MakeFreeAxis (s : SixDOFConstraintSettings) (inAxis : EAxis) : SixDOFConstraintSettings :=
  { s with
    mLimitMin := s.mLimitMin.set inAxis (F32.neg FLT_MAX)
    mLimitMax := s.mLimitMax.set inAxis FLT_MAX }

/-- The member `IsFreeAxis`. -/
def IsFreeAxis (s : SixDOFConstraintSettings) (inAxis : EAxis) : Bool :=
  F32.feq (s.mLimitMin inAxis) (F32.neg FLT_MAX) && F32.feq (s.mLimitMax inAxis) FLT_MAX

/-- Make axis fixed (fixed at value 0). -/
def MakeFixedAxis (s : SixDOFConstraintSettings) (inAxis : EAxis) : SixDOFConstraintSettings :=
  { s with
    mLimitMin := s.mLimitMin.set inAxis FLT_MAX
    mLimitMax := s.mLimitMax.set inAxis (F32.neg FLT_MAX) }

/-- The member `IsFixedAxis`. -/
def IsFixedAxis (s : SixDOFConstraintSettings) (inAxis : EAxis) : Bool :=
  F32.ge (s.mLimitMin inAxis) (s.mLimitMax inAxis)

/-- The three conditions asserted by `SetLimitedAxis`. -/
def SetLimitedAxis.asserts (inMin inMax : F32) : Bool :=
  F32.lt inMin inMax && F32.le inMin F32.zero && F32.ge inMax F32.zero

/-- Set a valid range for the constraint.  The macro `JPH_ASSERT` is not part of the
sources: `assertsEnabled` says whether a failed assertion stops the program.  If it does
there is no resulting value (`none`); otherwise (assertions compiled out, or reported and
execution continued) the two assignments are made whatever the arguments. -/
def SetLimitedAxis (assertsEnabled : Bool) (s : SixDOFConstraintSettings) (inAxis : EAxis)
    (inMin inMax : F32) : Option SixDOFConstraintSettings :=
  if assertsEnabled && !SetLimitedAxis.asserts inMin inMax then none
  else some { s with
    mLimitMin := s.mLimitMin.set inAxis inMin
    mLimitMax := s.mLimitMax.set inAxis inMax }

/-- Specification predicate: axis `b` and the friction array are the same in `s` and
`t`. -/
def SameOnAxis (s t : SixDOFConstraintSettings) (b : EAxis) : Prop :=
  t.mLimitMin b = s.mLimitMin b ∧ t.mLimitMax b = s.mLimitMax b ∧
  t.IsFreeAxis b = s.IsFreeAxis b ∧ t.IsFixedAxis b = s.IsFixedAxis b ∧
  t.mMaxFriction = s.mMaxFriction

end SixDOFConstraintSettings

/-! ## SixDOFConstraint -/

/-- Modelled from the spec: the type `Quat` is not part of the sources; components
`x, y, z` (imaginary) and `w` (real) of scalar type `α`. -/
structure Quat (α : Type) where
  x : α
  y : α
  z : α
  w : α
deriving DecidableEq

namespace Quat

/-- Modelled from the spec: `Quat::sIdentity()`. -/
def sIdentity {α : Type} (A : Arith α) : Quat α := ⟨A.zero, A.zero, A.zero, A.one⟩

/-- Modelled from the spec: the quaternion product `operator *` (Hamilton product, left
operand first), each component summed from left to right. -/
def mul {α : Type} (A : Arith α) (l r : Quat α) : Quat α :=
  ⟨A.sub (A.add (A.add (A.mul l.w r.x) (A.mul l.x r.w)) (A.mul l.y r.z)) (A.mul l.z r.y),
   A.add (A.add (A.sub (A.mul l.w r.y) (A.mul l.x r.z)) (A.mul l.y r.w)) (A.mul l.z r.x),
   A.add (A.sub (A.add (A.mul l.w r.z) (A.mul l.x r.y)) (A.mul l.y r.x)) (A.mul l.z r.w),
   A.sub (A.sub (A.sub (A.mul l.w r.w) (A.mul l.x r.x)) (A.mul l.y r.y)) (A.mul l.z r.z)⟩

end Quat

/-- Modelled from the spec: the motor state of an axis (off, velocity drive, position
drive); the enum `EMotorState` is not part of the sources. -/
inductive EMotorState where
  | Off
  | Velocity
  | Position
deriving DecidableEq, Repr

/-- The configuration properties and motor controls of `SixDOFConstraint`.  The masks are
`uint8` values.  `mMotorSettings` and the run time properties (world space axes,
displacements, constraint parts), whose types are not part of the sources, are left out;
no modelled member function touches them. -/
structure SixDOFConstraint where
  mLocalSpacePosition1 : Vec3
  mLocalSpacePosition2 : Vec3
  mConstraintToBody1 : Quat F32
  mConstraintToBody2 : Quat F32
  mFreeAxis : Nat
  mFixedAxis : Nat
  mTranslationMotorActive : Bool := false
  mRotationMotorActive : Bool := false
  mRotationPositionMotorActive : Nat := 0
  mLimitMin : AxisArray F32
  mLimitMax : AxisArray F32
  mMaxFriction : AxisArray F32
  mMotorState : AxisArray EMotorState := fun _ => EMotorState.Off
  mTargetVelocity : Vec3 := Vec3.sZero
  mTargetAngularVelocity : Vec3 := Vec3.sZero
  mTargetPosition : Vec3 := Vec3.sZero
  mTargetOrientation : Quat F32 := Quat.sIdentity binary32

namespace SixDOFConstraint

/-- The getter `GetMaxFriction`. -/
def GetMaxFriction (c : SixDOFConstraint) (inAxis : EAxis) : F32 := c.mMaxFriction inAxis

/-- The getter `GetMotorState`. -/
def GetMotorState (c : SixDOFConstraint) (inAxis : EAxis) : EMotorState := c.mMotorState inAxis

/-- The getter `GetTargetVelocityCS`. -/
def GetTargetVelocityCS (c : SixDOFConstraint) : Vec3 := c.mTargetVelocity

/-- Set the target velocity in body 1 constraint space. -/
def SetTargetVelocityCS (c : SixDOFConstraint) (inVelocity : Vec3) : SixDOFConstraint :=
  { c with mTargetVelocity := inVelocity }

/-- Set the target angular velocity in body 2 constraint space. -/
def SetTargetAngularVelocityCS (c : SixDOFConstraint) (inAngularVelocity : Vec3) :
    SixDOFConstraint :=
  { c with mTargetAngularVelocity := inAngularVelocity }

/-- The getter `GetTargetAngularVelocityCS`. -/
def GetTargetAngularVelocityCS (c : SixDOFConstraint) : Vec3 := c.mTargetAngularVelocity

/-- The getter `GetTargetPositionCS`. -/
def GetTargetPositionCS (c : SixDOFConstraint) : Vec3 := c.mTargetPosition

/-- Set the target position in body 1 constraint space. -/
def SetTargetPositionCS (c : SixDOFConstraint) (inPosition : Vec3) : SixDOFConstraint :=
  { c with mTargetPosition := inPosition }

/-- The getter `GetTargetOrientationCS`. -/
def GetTargetOrientationCS (c : SixDOFConstraint) : Quat F32 := c.mTargetOrientation

/-- The helper `IsAxisFixed`. -/
def IsAxisFixed (c : SixDOFConstraint) (inAxis : EAxis) : Bool :=
  decide (c.mFixedAxis &&& (1 <<< inAxis.toNat) ≠ 0)

/-- The helper `IsAxisFree`. -/
def IsAxisFree (c : SixDOFConstraint) (inAxis : EAxis) : Bool :=
  decide (c.mFreeAxis &&& (1 <<< inAxis.toNat) ≠ 0)

/-- The helper `IsTranslationConstrained`. -/
def IsTranslationConstrained (c : SixDOFConstraint) : Bool :=
  decide (c.mFreeAxis &&& 0b111 ≠ 0b111)

/-- The helper `IsTranslationFullyConstrained`. -/
def IsTranslationFullyConstrained (c : SixDOFConstraint) : Bool :=
  decide (c.mFixedAxis &&& 0b111 = 0b111)

/-- The helper `IsRotationConstrained`. -/
def IsRotationConstrained (c : SixDOFConstraint) : Bool :=
  decide (c.mFreeAxis &&& 0b111000 ≠ 0b111000)

/-- The helper `IsRotationFullyConstrained`. -/
def IsRotationFullyConstrained (c : SixDOFConstraint) : Bool :=
  decide (c.mFixedAxis &&& 0b111000 = 0b111000)

/-- The helper `HasFriction`. -/
def HasFriction (c : SixDOFConstraint) (inAxis : EAxis) : Bool :=
  !c.IsAxisFixed inAxis && F32.gt (c.mMaxFriction inAxis) F32.zero

/-- A constraint with the two given constraint-to-body rotations, nothing fixed or free,
and all other members zero or at their default. -/
def withFrames (q1 q2 : Quat F32) : SixDOFConstraint :=
  { mLocalSpacePosition1 := Vec3.sZero
    mLocalSpacePosition2 := Vec3.sZero
    mConstraintToBody1 := q1
    mConstraintToBody2 := q2
    mFreeAxis := 0
    mFixedAxis := 0
    mLimitMin := fun _ => F32.neg F32.one
    mLimitMax := fun _ => F32.one
    mMaxFriction := fun _ => F32.zero }

end SixDOFConstraint

end JPH

namespace Piccolo

/-! ## CharacterController::move -/

/-- Modelled from the spec: the type `Vector3` is not part of the sources; three
components of scalar type `α`. -/
structure Vector3 (α : Type) where
  x : α
  y : α
  z : α
deriving DecidableEq

namespace Vector3

/-- Modelled from the spec: `Vector3::UNIT_SCALE`. -/
def UNIT_SCALE {α : Type} (A : Arith α) : Vector3 α := ⟨A.one, A.one, A.one⟩

/-- Modelled from the spec: componentwise `operator+` (and `operator+=`). -/
def add {α : Type} (A : Arith α) (a b : Vector3 α) : Vector3 α :=
  ⟨A.add a.x b.x, A.add a.y b.y, A.add a.z b.z⟩

/-- Modelled from the spec: componentwise `operator-` (and `operator-=`). -/
def sub {α : Type} (A : Arith α) (a b : Vector3 α) : Vector3 α :=
  ⟨A.sub a.x b.x, A.sub a.y b.y, A.sub a.z b.z⟩

/-- Modelled from the spec: `dotProduct`, `x * vec.x + y * vec.y + z * vec.z` summed from
left to right. -/
def dotProduct {α : Type} (A : Arith α) (a vec : Vector3 α) : α :=
  A.add (A.add (A.mul a.x vec.x) (A.mul a.y vec.y)) (A.mul a.z vec.z)

/-- Modelled from the spec: `operator*(float scalar, const Vector3& rhs)`. -/
def scalarMul {α : Type} (A : Arith α) (scalar : α) (rhs : Vector3 α) : Vector3 α :=
  ⟨A.mul scalar rhs.x, A.mul scalar rhs.y, A.mul scalar rhs.z⟩

/-- Modelled from the spec: the member `operator*(float scalar)`. -/
def mulScalar {α : Type} (A : Arith α) (a : Vector3 α) (scalar : α) : Vector3 α :=
  ⟨A.mul a.x scalar, A.mul a.y scalar, A.mul a.z scalar⟩

end Vector3

/-- The two `Vector3` members used by `move` that take a square root.  They are not part
of the sources, so they are parameters. -/
structure Vector3Sqrt (α : Type) where
  length : Vector3 α → α
  normalisedCopy : Vector3 α → Vector3 α

/-- Modelled from the spec: the type `Quaternion` is not part of the sources. -/
structure Quaternion (α : Type) where
  w : α
  x : α
  y : α
  z : α
deriving DecidableEq

/-- Modelled from the spec: `Quaternion::IDENTITY`. -/
def Quaternion.IDENTITY {α : Type} (A : Arith α) : Quaternion α :=
  ⟨A.one, A.zero, A.zero, A.zero⟩

/-- Modelled from the spec: the type `Transform` is not part of the sources.  Its
`getMatrix()` is a function of the three members, so a query that receives
`getMatrix()` is modelled as receiving the transform. -/
structure Transform (α : Type) where
  m_position : Vector3 α
  m_rotation : Quaternion α
  m_scale : Vector3 α
deriving DecidableEq

/-- Modelled from the spec: the geometry of a capsule. -/
structure Capsule (α : Type) where
  m_radius : α
  m_half_height : α
deriving DecidableEq

/-- Modelled from the spec: the type `RigidBodyShape`, here always of capsule type. -/
structure RigidBodyShape (α : Type) where
  m_local_transform : Transform α
  m_geometry : Capsule α
deriving DecidableEq

/-- Modelled from the spec: one hit reported by a sweep query. -/
structure PhysicsHitInfo (α : Type) where
  hit_position : Vector3 α
  hit_normal : Vector3 α
  hit_distance : α
  body_id : Nat
deriving DecidableEq

/-- Modelled from the spec: the physics scene is an external collaborator that answers
shape-sweep and overlap queries.  `sweep` returns its boolean result together with the
content it leaves in the output vector `hits`. -/
structure PhysicsScene (α : Type) where
  sweep : RigidBodyShape α → Transform α → Vector3 α → α → Bool × List (PhysicsHitInfo α)
  isOverlap : RigidBodyShape α → Transform α → Bool

/-- The data members of `CharacterController`. -/
structure CharacterController (α : Type) where
  m_capsule : Capsule α
  m_rigidbody_shape : RigidBodyShape α

/-- The member function `CharacterController::move`, computed in the arithmetic `A`
(`binary32` for the program).  `physics_scene` is the result of locking the weak pointer
to the active scene (`none` for a null pointer, on which `ASSERT` fails or the pointer is
dereferenced: no result).  Reading `hits[0]` of an empty vector gives no result
either. -/
def CharacterController.move {α : Type} (A : Arith α) (lib : Vector3Sqrt α)
    (physics_scene : Option (PhysicsScene α)) (self : CharacterController α)
    (current_position displacement : Vector3 α) : Option (Vector3 α) :=
  match physics_scene with
  | none => none
  | some scene =>
    let final_position : Vector3 α := current_position
    let final_transform : Transform α :=
      ⟨final_position, Quaternion.IDENTITY A, Vector3.UNIT_SCALE A⟩
    let horizontal_displacement : Vector3 α := ⟨displacement.x, displacement.y, A.zero⟩
    let vertical_displacement : Vector3 α := ⟨A.zero, A.zero, displacement.z⟩
    let swept := scene.sweep self.m_rigidbody_shape final_transform
      (lib.normalisedCopy horizontal_displacement) (lib.length horizontal_displacement)
    let hits : List (PhysicsHitInfo α) := swept.2
    let afterSweep : Option (Vector3 α) :=
      if swept.1 then
        match hits with
        | [] => none
        | hit0 :: _ =>
          let norm : Vector3 α := lib.normalisedCopy hit0.hit_normal
          let movement : Vector3 α :=
            Vector3.sub A horizontal_displacement
              (Vector3.mulScalar A
                (Vector3.scalarMul A (Vector3.dotProduct A norm horizontal_displacement) norm)
                A.lit_1_1)
          some (Vector3.add A final_position movement)
      else
        some (Vector3.add A final_position horizontal_displacement)
    match afterSweep with
    | none => none
    | some final_position =>
      let final_position : Vector3 α := Vector3.add A final_position vertical_displacement
      let final_transform : Transform α := { final_transform with m_position := final_position }
      if scene.isOverlap self.m_rigidbody_shape final_transform then
        some (Vector3.sub A final_position horizontal_displacement)
      else
        some final_position

/-! ### Names of the specification and example scenes -/

/-- The horizontal part `(displacement.x, displacement.y, 0)` of a displacement. -/
def horizontal {α : Type} (A : Arith α) (displacement : Vector3 α) : Vector3 α :=
  ⟨displacement.x, displacement.y, A.zero⟩

/-- The vertical part `(0, 0, displacement.z)` of a displacement. -/
def vertical {α : Type} (A : Arith α) (displacement : Vector3 α) : Vector3 α :=
  ⟨A.zero, A.zero, displacement.z⟩

/-- The transform `Transform(position, Quaternion::IDENTITY, Vector3::UNIT_SCALE)`. -/
def transformAt {α : Type} (A : Arith α) (position : Vector3 α) : Transform α :=
  ⟨position, Quaternion.IDENTITY A, Vector3.UNIT_SCALE A⟩

/-- The movement of the hit branch in the order of the source:
`h - norm.dotProduct(h) * norm * 1.1`. -/
def slide {α : Type} (A : Arith α) (n h : Vector3 α) : Vector3 α :=
  Vector3.sub A h
    (Vector3.mulScalar A (Vector3.scalarMul A (Vector3.dotProduct A n h) n) A.lit_1_1)

/-- The vector `1.1 * (n . h) * n` of the specification in exact arithmetic: the
component of `h` along `n`, scaled by 1.1. -/
def alongNormal (n h : Vector3 ℚ) : Vector3 ℚ :=
  ⟨(1.1 : ℚ) * (n.x * h.x + n.y * h.y + n.z * h.z) * n.x,
   (1.1 : ℚ) * (n.x * h.x + n.y * h.y + n.z * h.z) * n.y,
   (1.1 : ℚ) * (n.x * h.x + n.y * h.y + n.z * h.z) * n.z⟩

/-- Two vectors hold the same numbers. -/
def sameVector (a b : Vector3 F32) : Bool :=
  F32.same a.x b.x && F32.same a.y b.y && F32.same a.z b.z

/-- The absolute value: the sign bit cleared. -/
def fabs (f : F32) : F32 := { f with sign := false }

/-- The number `1` with the sign of `f`, and `f` itself when it is a zero or a NaN. -/
def unitOf (f : F32) : F32 :=
  if f.isZero || f.isNaN then f else ⟨f.sign, 127, 0⟩

/-- An instance of the square-root members for the examples, meant for vectors along a
coordinate axis: the length is the sum of the absolute values of the components and
the normalised copy replaces a component that is not zero by `1` with its sign. -/
def axisSqrt : Vector3Sqrt F32 where
  length := fun v => F32.add (F32.add (fabs v.x) (fabs v.y)) (fabs v.z)
  normalisedCopy := fun v => ⟨unitOf v.x, unitOf v.y, unitOf v.z⟩

/-- The hit reported by the example scenes: a wall at `x = wallX` that faces the negative
x direction; the normal is reported with length 2. -/
def wallHit (wallX : F32) : PhysicsHitInfo F32 :=
  ⟨⟨wallX, F32.zero, F32.zero⟩, ⟨F32.ofWord 0xC0000000, F32.zero, F32.zero⟩, F32.zero, 7⟩

/-- An example scene: a wall at `x = wallX`.  A sweep in the positive x direction hits
the wall when it reaches it; a shape overlaps when it is at the wall or beyond. -/
def wallScene (wallX : F32) : PhysicsScene F32 where
  sweep := fun _ start direction distance =>
    if F32.gt direction.x F32.zero
      && F32.ge (F32.add start.m_position.x (F32.mul direction.x distance)) wallX
    then (true, [wallHit wallX]) else (false, [])
  isOverlap := fun _ placed => F32.ge placed.m_position.x wallX

/-- An example controller: a capsule of radius 1 and half height 1. -/
def exampleController : CharacterController F32 where
  m_capsule := ⟨F32.one, F32.one⟩
  m_rigidbody_shape :=
    ⟨transformAt binary32 ⟨F32.zero, F32.zero, F32.one⟩, ⟨F32.one, F32.one⟩⟩

end Piccolo

/-! ## Facts about binary32 arithmetic -/

namespace F32

theorem zero_isNaN : zero.isNaN = false := by decide
theorem zero_isInf : zero.isInf = false := by decide
theorem zero_isZero : zero.isZero = true := by decide
theorem qNaN_isNaN : qNaN.isNaN = true := by decide
/-- A value whose exponent and mantissa fields are zero is the zero of its sign. -/
theorem eq_signedZero (a : F32) (h : a.isZero = true) : a = signedZero a.sign := by
  obtain ⟨s, ⟨e, he⟩, ⟨m, hm⟩⟩ := a
  simp only [isZero, Bool.and_eq_true, decide_eq_true_eq] at h
  obtain ⟨h1, h2⟩ := h
  subst h1 h2
  rfl

theorem isZero_not_isNaN (a : F32) (h : a.isZero = true) : a.isNaN = false := by
  rw [eq_signedZero a h]; rfl

theorem isZero_not_isInf (a : F32) (h : a.isZero = true) : a.isInf = false := by
  rw [eq_signedZero a h]; rfl

theorem mul_nan_right (a b : F32) (h : b.isNaN = true) : mul a b = qNaN := by
  simp [mul, h]

theorem add_nan_left (a b : F32) (h : a.isNaN = true) : add a b = qNaN := by
  simp [add, h]

theorem add_nan_right (a b : F32) (h : b.isNaN = true) : add a b = qNaN := by
  simp [add, h]

theorem same_refl (a : F32) : same a a = true := by simp [same]

theorem same_of_isZero (a b : F32) (ha : a.isZero = true) (hb : b.isZero = true) :
    same a b = true := by simp [same, ha, hb]

theorem same_of_isNaN (a b : F32) (ha : a.isNaN = true) (hb : b.isNaN = true) :
    same a b = true := by simp [same, ha, hb]

/-- The sum of a number that is not a zero and `+0`. -/
theorem add_zero_of_not_isZero (a : F32) (h1 : a.isNaN = false) (h3 : a.isZero = false) :
    add a zero = a := by
  cases h2 : a.isInf <;> simp [add, h1, h2, h3, zero_isNaN, zero_isInf, zero_isZero]

/-- The sum of a zero and `+0`. -/
theorem add_zero_of_isZero (a : F32) (h3 : a.isZero = true) : add a zero = zero := by
  have h1 := isZero_not_isNaN a h3
  have h2 := isZero_not_isInf a h3
  have hz : zero.sign = false := rfl
  simp only [add, h1, h2, h3, zero_isNaN, zero_isInf, zero_isZero, Bool.or_self,
    Bool.false_eq_true, if_false, Bool.and_self, if_true, hz, Bool.and_false]
  rfl

/-- The sum of a zero and a number that is not a zero. -/
theorem zero_add_of_not_isZero (a d : F32) (ha : a.isZero = true) (h4 : d.isNaN = false)
    (h6 : d.isZero = false) : add a d = d := by
  have h1 := isZero_not_isNaN a ha
  have h2 := isZero_not_isInf a ha
  cases h5 : d.isInf <;> simp [add, h1, h2, ha, h4, h5, h6]

/-- The sum of two zeros is a zero. -/
theorem zero_add_zero_isZero (a d : F32) (ha : a.isZero = true) (hd : d.isZero = true) :
    (add a d).isZero = true := by
  have h1 := isZero_not_isNaN a ha
  have h2 := isZero_not_isInf a ha
  have h4 := isZero_not_isNaN d hd
  have h5 := isZero_not_isInf d hd
  simp only [add, h1, h2, ha, h4, h5, hd, Bool.or_self, Bool.false_eq_true, if_false,
    Bool.and_self, if_true]
  rfl

/-- Adding `+0` keeps the number. -/
theorem add_zero_same (s : F32) : same (add s zero) s = true := by
  cases h1 : s.isNaN
  · cases h3 : s.isZero
    · rw [add_zero_of_not_isZero s h1 h3]
      exact same_refl s
    · rw [add_zero_of_isZero s h3]
      exact same_of_isZero _ _ zero_isZero h3
  · rw [add_nan_left s zero h1]
    exact same_of_isNaN _ _ qNaN_isNaN h1

/-- Adding `+0` to the first operand of a sum keeps the sum. -/
theorem add_zero_add_same (c d : F32) : same (add (add c zero) d) (add c d) = true := by
  cases h1 : c.isNaN
  · cases h3 : c.isZero
    · rw [add_zero_of_not_isZero c h1 h3]
      exact same_refl _
    · rw [add_zero_of_isZero c h3]
      cases h4 : d.isNaN
      · cases h6 : d.isZero
        · rw [zero_add_of_not_isZero zero d zero_isZero h4 h6,
            zero_add_of_not_isZero c d h3 h4 h6]
          exact same_refl d
        · exact same_of_isZero _ _ (zero_add_zero_isZero zero d zero_isZero h6)
            (zero_add_zero_isZero c d h3 h6)
      · rw [add_nan_right zero d h4, add_nan_right c d h4]
        exact same_refl _
  · rw [add_nan_left c zero h1, add_nan_left qNaN d qNaN_isNaN, add_nan_left c d h1]
    exact same_refl _

theorem lt_key {a b : F32} (h : lt a b = true) : a.key < b.key := by
  simp only [lt, Bool.and_eq_true, decide_eq_true_eq] at h
  exact h.2

theorem le_key {a b : F32} (h : le a b = true) : a.key ≤ b.key := by
  simp only [le, Bool.and_eq_true, decide_eq_true_eq] at h
  exact h.2

/-- Float equality with `-FLT_MAX` holds for exactly one bit pattern. -/
theorem feq_neg_FLT_MAX (a : F32) : feq a (neg FLT_MAX) = true ↔ a = neg FLT_MAX := by
  constructor
  · intro h
    simp only [feq, Bool.and_eq_true, Bool.not_eq_true', decide_eq_true_eq] at h
    obtain ⟨_, hk⟩ := h
    obtain ⟨s, ⟨e, he⟩, ⟨m, hm⟩⟩ := a
    have hk2 : (neg FLT_MAX).key = -2139095039 := by decide
    rw [hk2] at hk
    simp only [key, magnitude] at hk
    cases s
    · simp only [Bool.false_eq_true, if_false] at hk
      omega
    · simp only [if_true] at hk
      have he2 : e = 254 := by omega
      have hm2 : m = 8388607 := by omega
      subst he2 hm2
      rfl
  · intro h
    subst h
    decide

/-- Float equality with `FLT_MAX` holds for exactly one bit pattern. -/
theorem feq_FLT_MAX (a : F32) : feq a FLT_MAX = true ↔ a = FLT_MAX := by
  constructor
  · intro h
    simp only [feq, Bool.and_eq_true, Bool.not_eq_true', decide_eq_true_eq] at h
    obtain ⟨_, hk⟩ := h
    obtain ⟨s, ⟨e, he⟩, ⟨m, hm⟩⟩ := a
    have hk2 : FLT_MAX.key = 2139095039 := by decide
    rw [hk2] at hk
    simp only [key, magnitude] at hk
    cases s
    · simp only [Bool.false_eq_true, if_false] at hk
      have he2 : e = 254 := by omega
      have hm2 : m = 8388607 := by omega
      subst he2 hm2
      rfl
    · simp only [if_true] at hk
      omega
  · intro h
    subst h
    decide

/-- A pair ordered by `<` is not ordered by `>=`. -/
theorem ge_false_of_lt {a b : F32} (h : lt a b = true) : ge a b = false := by
  have hk := lt_key h
  cases hge : ge a b
  · rfl
  · have hk2 := le_key hge
    omega

end F32

namespace JPH

namespace SixDOFConstraintSettings

/-- Claim C1: after `MakeFixedAxis(a)` the limits of `a` are `min = FLT_MAX` and
`max = -FLT_MAX`, `IsFixedAxis(a)` is true and `IsFreeAxis(a)` is false, for every
settings value and every axis. -/
theorem MakeFixedAxis_fixed (s : SixDOFConstraintSettings) (a : EAxis) :
    (s.MakeFixedAxis a).mLimitMin a = FLT_MAX ∧
    (s.MakeFixedAxis a).mLimitMax a = F32.neg FLT_MAX ∧
    (s.MakeFixedAxis a).IsFixedAxis a = true ∧
    (s.MakeFixedAxis a).IsFreeAxis a = false := by
  have h1 : (s.MakeFixedAxis a).mLimitMin a = FLT_MAX := by
    simp [MakeFixedAxis, AxisArray.set]
  have h2 : (s.MakeFixedAxis a).mLimitMax a = F32.neg FLT_MAX := by
    simp [MakeFixedAxis, AxisArray.set]
  refine ⟨h1, h2, ?_, ?_⟩
  · simp only [IsFixedAxis, h1, h2]
    decide
  · simp only [IsFreeAxis, h1, h2]
    decide

/-- Claim C2: after `MakeFreeAxis(a)` the limits of `a` are `min = -FLT_MAX` and
`max = FLT_MAX`, `IsFreeAxis(a)` is true and `IsFixedAxis(a)` is false; a
default-constructed settings object has all six axes free and none fixed. -/
theorem MakeFreeAxis_free (s : SixDOFConstraintSettings) (a : EAxis) :
    ((s.MakeFreeAxis a).mLimitMin a = F32.neg FLT_MAX ∧
     (s.MakeFreeAxis a).mLimitMax a = FLT_MAX ∧
     (s.MakeFreeAxis a).IsFreeAxis a = true ∧
     (s.MakeFreeAxis a).IsFixedAxis a = false) ∧
    (default.mLimitMin a = F32.neg FLT_MAX ∧ default.mLimitMax a = FLT_MAX ∧
     default.IsFreeAxis a = true ∧ default.IsFixedAxis a = false) := by
  have h1 : (s.MakeFreeAxis a).mLimitMin a = F32.neg FLT_MAX := by
    simp [MakeFreeAxis, AxisArray.set]
  have h2 : (s.MakeFreeAxis a).mLimitMax a = FLT_MAX := by
    simp [MakeFreeAxis, AxisArray.set]
  refine ⟨⟨h1, h2, ?_, ?_⟩, rfl, rfl, ?_, ?_⟩
  · simp only [IsFreeAxis, h1, h2]
    decide
  · simp only [IsFixedAxis, h1, h2]
    decide
  · cases a <;> decide
  · cases a <;> decide

/-- Counterexample to claim C3: the pair `(-FLT_MAX, FLT_MAX)` passes the three
assertions of `SetLimitedAxis`, and after the call `IsFreeAxis` is true, so the axis is
free and not limited. -/
theorem SetLimitedAxis_full_range_is_free :
    F32.lt (F32.neg FLT_MAX) FLT_MAX = true ∧
    F32.le (F32.neg FLT_MAX) F32.zero = true ∧
    F32.ge FLT_MAX F32.zero = true ∧
    (SetLimitedAxis true default EAxis.TranslationX (F32.neg FLT_MAX) FLT_MAX).map
      (fun t => t.IsFreeAxis EAxis.TranslationX) = some true := by
  decide

/-- Claim C3, amended: for a pair that passes the assertions of `SetLimitedAxis`
(`inMin < inMax`, `inMin <= 0`, `inMax >= 0`) the call returns, the stored limits of the
axis are exactly `inMin` and `inMax`, `IsFixedAxis` is false, and `IsFreeAxis` is false
except for the pair `(-FLT_MAX, FLT_MAX)`, for which it is true. -/
theorem SetLimitedAxis_limited (assertsEnabled : Bool) (s : SixDOFConstraintSettings)
    (a : EAxis) (inMin inMax : F32)
    (h1 : F32.lt inMin inMax = true) (h2 : F32.le inMin F32.zero = true)
    (h3 : F32.ge inMax F32.zero = true) :
    ∃ t, SetLimitedAxis assertsEnabled s a inMin inMax = some t ∧
      t.mLimitMin a = inMin ∧ t.mLimitMax a = inMax ∧
      t.IsFixedAxis a = false ∧
      (t.IsFreeAxis a = true ↔ (inMin = F32.neg FLT_MAX ∧ inMax = FLT_MAX)) := by
  refine ⟨{ s with mLimitMin := s.mLimitMin.set a inMin, mLimitMax := s.mLimitMax.set a inMax },
    ?_, ?_, ?_, ?_, ?_⟩
  · simp [SetLimitedAxis, SetLimitedAxis.asserts, h1, h2, h3]
  · simp [AxisArray.set]
  · simp [AxisArray.set]
  · simp only [IsFixedAxis, AxisArray.set, if_true]
    exact F32.ge_false_of_lt h1
  · simp only [IsFreeAxis, AxisArray.set, if_true, Bool.and_eq_true,
      F32.feq_neg_FLT_MAX, F32.feq_FLT_MAX]

/-- Witness for `SetLimitedAxis_limited`: the range `[-1, 1]` on `RotationX`. -/
theorem SetLimitedAxis_limited_witness :
    ∃ t, SetLimitedAxis true default EAxis.RotationX (F32.neg F32.one) F32.one = some t ∧
      t.mLimitMin EAxis.RotationX = F32.neg F32.one ∧
      t.mLimitMax EAxis.RotationX = F32.one ∧
      t.IsFixedAxis EAxis.RotationX = false ∧
      (t.IsFreeAxis EAxis.RotationX = true ↔
        (F32.neg F32.one = F32.neg FLT_MAX ∧ F32.one = FLT_MAX)) :=
  SetLimitedAxis_limited true default EAxis.RotationX (F32.neg F32.one) F32.one
    (by decide) (by decide) (by decide)

/-- Claim C4: for two distinct axes `a` and `b`, `MakeFreeAxis(a)`, `MakeFixedAxis(a)` and
`SetLimitedAxis(a, min, max)` leave `mLimitMin[b]`, `mLimitMax[b]`, `IsFreeAxis(b)`,
`IsFixedAxis(b)` and the whole array `mMaxFriction` unchanged; `SetLimitedAxis` returns
whenever assertions are off or hold. -/
theorem axis_independent (assertsEnabled : Bool) (s : SixDOFConstraintSettings)
    (a b : EAxis) (inMin inMax : F32) (hab : a ≠ b) :
    SameOnAxis s (s.MakeFreeAxis a) b ∧
    SameOnAxis s (s.MakeFixedAxis a) b ∧
    (∀ t, SetLimitedAxis assertsEnabled s a inMin inMax = some t → SameOnAxis s t b) ∧
    ((assertsEnabled = false ∨ SetLimitedAxis.asserts inMin inMax = true) →
      (SetLimitedAxis assertsEnabled s a inMin inMax).isSome = true) := by
  have hba : ¬ b = a := fun h => hab h.symm
  refine ⟨?_, ?_, ?_, ?_⟩
  · simp [SameOnAxis, MakeFreeAxis, IsFreeAxis, IsFixedAxis, AxisArray.set, hba]
  · simp [SameOnAxis, MakeFixedAxis, IsFreeAxis, IsFixedAxis, AxisArray.set, hba]
  · intro t ht
    unfold SetLimitedAxis at ht
    split at ht
    · exact absurd ht (by simp)
    · have ht2 := Option.some.inj ht
      subst ht2
      simp [SameOnAxis, IsFreeAxis, IsFixedAxis, AxisArray.set, hba]
  · intro h
    rcases h with h | h <;> simp [SetLimitedAxis, h]

/-- Witness for `axis_independent`: axes `TranslationX` and `RotationZ` of the settings
obtained by fixing `RotationZ`, with the range `[-1, 1]`. -/
theorem axis_independent_witness :
    SameOnAxis (default.MakeFixedAxis EAxis.RotationZ)
      ((default.MakeFixedAxis EAxis.RotationZ).MakeFreeAxis EAxis.TranslationX)
      EAxis.RotationZ ∧
    SameOnAxis (default.MakeFixedAxis EAxis.RotationZ)
      ((default.MakeFixedAxis EAxis.RotationZ).MakeFixedAxis EAxis.TranslationX)
      EAxis.RotationZ ∧
    (∀ t, SetLimitedAxis true (default.MakeFixedAxis EAxis.RotationZ) EAxis.TranslationX
        (F32.neg F32.one) F32.one = some t →
      SameOnAxis (default.MakeFixedAxis EAxis.RotationZ) t EAxis.RotationZ) ∧
    ((true = false ∨ SetLimitedAxis.asserts (F32.neg F32.one) F32.one = true) →
      (SetLimitedAxis true (default.MakeFixedAxis EAxis.RotationZ) EAxis.TranslationX
        (F32.neg F32.one) F32.one).isSome = true) :=
  axis_independent true (default.MakeFixedAxis EAxis.RotationZ) EAxis.TranslationX
    EAxis.RotationZ (F32.neg F32.one) F32.one (by decide)

end SixDOFConstraintSettings

namespace SixDOFConstraint

/-- Masking with a constant below 64 only reads the low six bits of the mask. -/
theorem land_low_bits (m k : Nat) (hk : k < 64) : m &&& k = (m % 64) &&& k := by
  have h63 : ∀ j, j < 64 → 63 &&& j = j := by decide
  have hm : m &&& 63 = m % 64 := Nat.and_pow_two_sub_one_eq_mod m 6
  calc m &&& k = m &&& (63 &&& k) := by rw [h63 k hk]
    _ = (m &&& 63) &&& k := (Nat.land_assoc m 63 k).symm
    _ = (m % 64) &&& k := by rw [hm]

/-- Claim C5: for every value of the fixed-axis mask, `IsTranslationFullyConstrained()` is
true exactly when `IsAxisFixed` holds for the three translation axes, and
`IsRotationFullyConstrained()` exactly when it holds for the three rotation axes; axis
`i` is bit `i` of the mask. -/
theorem fully_constrained_iff_all_fixed (c : SixDOFConstraint) :
    (c.IsTranslationFullyConstrained = true ↔
      (c.IsAxisFixed EAxis.TranslationX = true ∧ c.IsAxisFixed EAxis.TranslationY = true ∧
       c.IsAxisFixed EAxis.TranslationZ = true)) ∧
    (c.IsRotationFullyConstrained = true ↔
      (c.IsAxisFixed EAxis.RotationX = true ∧ c.IsAxisFixed EAxis.RotationY = true ∧
       c.IsAxisFixed EAxis.RotationZ = true)) ∧
    (∀ a : EAxis, c.IsAxisFixed a = c.mFixedAxis.testBit a.toNat) := by
  have key : ∀ r, r < 64 →
      ((r &&& 0b111 = 0b111 ↔ (r &&& 1 ≠ 0 ∧ r &&& 2 ≠ 0 ∧ r &&& 4 ≠ 0)) ∧
       (r &&& 0b111000 = 0b111000 ↔ (r &&& 8 ≠ 0 ∧ r &&& 16 ≠ 0 ∧ r &&& 32 ≠ 0))) := by
    decide
  have hr : c.mFixedAxis % 64 < 64 := Nat.mod_lt _ (by decide)
  refine ⟨?_, ?_, ?_⟩
  · simp only [IsTranslationFullyConstrained, IsAxisFixed, EAxis.toNat, decide_eq_true_eq]
    rw [land_low_bits c.mFixedAxis 0b111 (by decide),
      land_low_bits c.mFixedAxis (1 <<< 0) (by decide),
      land_low_bits c.mFixedAxis (1 <<< 1) (by decide),
      land_low_bits c.mFixedAxis (1 <<< 2) (by decide)]
    exact (key _ hr).1
  · simp only [IsRotationFullyConstrained, IsAxisFixed, EAxis.toNat, decide_eq_true_eq]
    rw [land_low_bits c.mFixedAxis 0b111000 (by decide),
      land_low_bits c.mFixedAxis (1 <<< 3) (by decide),
      land_low_bits c.mFixedAxis (1 <<< 4) (by decide),
      land_low_bits c.mFixedAxis (1 <<< 5) (by decide)]
    exact (key _ hr).2
  · intro a
    have hbit : ∀ r, r < 64 → ∀ i, i < 6 →
        decide (r &&& (1 <<< i) ≠ 0) = r.testBit i := by decide
    have hi : a.toNat < 6 := by cases a <;> decide
    have hlt : 1 <<< a.toNat < 64 := by cases a <;> decide
    have hmod : c.mFixedAxis.testBit a.toNat = (c.mFixedAxis % 64).testBit a.toNat := by
      have := Nat.testBit_mod_two_pow c.mFixedAxis 6 a.toNat
      simp only [hi, decide_True, Bool.true_and] at this
      exact this.symm
    simp only [IsAxisFixed]
    rw [land_low_bits c.mFixedAxis _ hlt, hmod]
    exact hbit _ hr _ hi

/-- Claim C6: each of `SetTargetVelocityCS`, `SetTargetAngularVelocityCS` and
`SetTargetPositionCS` followed by its getter returns the vector that was set, and
leaves the other two targets and the target orientation unchanged. -/
theorem target_setters_verbatim (c : SixDOFConstraint) (v : Vec3) :
    ((c.SetTargetVelocityCS v).GetTargetVelocityCS = v ∧
     (c.SetTargetVelocityCS v).GetTargetAngularVelocityCS = c.GetTargetAngularVelocityCS ∧
     (c.SetTargetVelocityCS v).GetTargetPositionCS = c.GetTargetPositionCS ∧
     (c.SetTargetVelocityCS v).GetTargetOrientationCS = c.GetTargetOrientationCS) ∧
    ((c.SetTargetAngularVelocityCS v).GetTargetAngularVelocityCS = v ∧
     (c.SetTargetAngularVelocityCS v).GetTargetVelocityCS = c.GetTargetVelocityCS ∧
     (c.SetTargetAngularVelocityCS v).GetTargetPositionCS = c.GetTargetPositionCS ∧
     (c.SetTargetAngularVelocityCS v).GetTargetOrientationCS = c.GetTargetOrientationCS) ∧
    ((c.SetTargetPositionCS v).GetTargetPositionCS = v ∧
     (c.SetTargetPositionCS v).GetTargetVelocityCS = c.GetTargetVelocityCS ∧
     (c.SetTargetPositionCS v).GetTargetAngularVelocityCS = c.GetTargetAngularVelocityCS ∧
     (c.SetTargetPositionCS v).GetTargetOrientationCS = c.GetTargetOrientationCS) :=
  ⟨⟨rfl, rfl, rfl, rfl⟩, ⟨rfl, rfl, rfl, rfl⟩, ⟨rfl, rfl, rfl, rfl⟩⟩

/-- Claim C8: `HasFriction(a)` is true exactly when `a` is not fixed in the cached mask and
`mMaxFriction[a] > 0`; an axis whose maximum friction compares equal to 0 has no
friction, and a fixed axis has no friction whatever its maximum. -/
theorem HasFriction_iff (c : SixDOFConstraint) (a : EAxis) :
    (c.HasFriction a = true ↔
      (c.IsAxisFixed a = false ∧ F32.gt (c.mMaxFriction a) F32.zero = true)) ∧
    (F32.feq (c.mMaxFriction a) F32.zero = true → c.HasFriction a = false) ∧
    (c.IsAxisFixed a = true → c.HasFriction a = false) := by
  refine ⟨?_, ?_, ?_⟩
  · simp [HasFriction]
  · intro h
    have hgt : F32.gt (c.mMaxFriction a) F32.zero = false := by
      simp only [F32.feq, Bool.and_eq_true, decide_eq_true_eq] at h
      cases hg : F32.gt (c.mMaxFriction a) F32.zero
      · rfl
      · have hk := F32.lt_key hg
        omega
    simp [HasFriction, hgt]
  · intro h
    simp [HasFriction, h]

/-- Witness for `HasFriction_iff`: a constraint with friction 1 on every axis and only
`RotationX` fixed; `TranslationY` has friction and `RotationX` has none. -/
theorem HasFriction_iff_witness :
    HasFriction { withFrames (Quat.sIdentity binary32) (Quat.sIdentity binary32) with
        mFixedAxis := 0b001000, mMaxFriction := fun _ => F32.one } EAxis.TranslationY = true ∧
    HasFriction (withFrames (Quat.sIdentity binary32) (Quat.sIdentity binary32)) EAxis.TranslationY = false ∧
    HasFriction { withFrames (Quat.sIdentity binary32) (Quat.sIdentity binary32) with
        mFixedAxis := 0b001000, mMaxFriction := fun _ => F32.one } EAxis.RotationX = false :=
  ⟨(HasFriction_iff _ EAxis.TranslationY).1.2 ⟨by decide, by decide⟩,
   (HasFriction_iff _ EAxis.TranslationY).2.1 (by decide),
   (HasFriction_iff _ EAxis.RotationX).2.2 (by decide)⟩

end SixDOFConstraint

end JPH

namespace Piccolo

/-- The value of `move` when the sweep reports a hit, in terms of the first hit normal
and the overlap test. -/
theorem move_hit_eq {α : Type} (A : Arith α) (lib : Vector3Sqrt α) (scene : PhysicsScene α)
    (self : CharacterController α) (c d : Vector3 α) (hit : PhysicsHitInfo α)
    (rest : List (PhysicsHitInfo α))
    (hs : scene.sweep self.m_rigidbody_shape (transformAt A c)
      (lib.normalisedCopy (horizontal A d)) (lib.length (horizontal A d))
      = (true, hit :: rest)) :
    self.move A lib (some scene) c d =
      if scene.isOverlap self.m_rigidbody_shape
          (transformAt A (Vector3.add A
            (Vector3.add A c (slide A (lib.normalisedCopy hit.hit_normal) (horizontal A d)))
            (vertical A d)))
      then some (Vector3.sub A
        (Vector3.add A
          (Vector3.add A c (slide A (lib.normalisedCopy hit.hit_normal) (horizontal A d)))
          (vertical A d))
        (horizontal A d))
      else some (Vector3.add A
        (Vector3.add A c (slide A (lib.normalisedCopy hit.hit_normal) (horizontal A d)))
        (vertical A d)) := by
  simp only [transformAt, horizontal] at hs
  simp only [CharacterController.move, hs, if_true]
  rfl

/-- The value of `move` when the sweep reports no hit, in terms of the overlap test. -/
theorem move_free_eq {α : Type} (A : Arith α) (lib : Vector3Sqrt α) (scene : PhysicsScene α)
    (self : CharacterController α) (c d : Vector3 α) (hits : List (PhysicsHitInfo α))
    (hs : scene.sweep self.m_rigidbody_shape (transformAt A c)
      (lib.normalisedCopy (horizontal A d)) (lib.length (horizontal A d)) = (false, hits)) :
    self.move A lib (some scene) c d =
      if scene.isOverlap self.m_rigidbody_shape
          (transformAt A (Vector3.add A (Vector3.add A c (horizontal A d)) (vertical A d)))
      then some (Vector3.sub A
        (Vector3.add A (Vector3.add A c (horizontal A d)) (vertical A d)) (horizontal A d))
      else some (Vector3.add A (Vector3.add A c (horizontal A d)) (vertical A d)) := by
  simp only [transformAt, horizontal] at hs
  simp only [CharacterController.move, hs, Bool.false_eq_true, if_false]
  rfl

/-- Claim C9: with `h = (displacement.x, displacement.y, 0)` and
`v = (0, 0, displacement.z)`, when the sweep reports a hit whose first hit normal
normalises to `n` and the final overlap test is negative, `move` returns
`current_position + (h - (n . h) * n * 1.1) + v`; when the sweep reports no hit and the
overlap test is negative, `move` returns `current_position + h + v`, which is
`current_position + displacement`.  The two returned values are computed by the program
in binary32 (the first two parts hold in every arithmetic); the third part says that the
no-hit value holds the same numbers as `current_position + displacement` in binary32; the
fourth that in exact arithmetic the two values are
`current_position + (h - 1.1 * (n . h) * n) + v` and `current_position + displacement`. -/
theorem move_without_overlap :
    (∀ (α : Type) (A : Arith α) (lib : Vector3Sqrt α) (scene : PhysicsScene α)
        (self : CharacterController α) (c d : Vector3 α) (hit : PhysicsHitInfo α)
        (rest : List (PhysicsHitInfo α)) (n : Vector3 α),
      scene.sweep self.m_rigidbody_shape (transformAt A c)
        (lib.normalisedCopy (horizontal A d)) (lib.length (horizontal A d))
        = (true, hit :: rest) →
      lib.normalisedCopy hit.hit_normal = n →
      scene.isOverlap self.m_rigidbody_shape
        (transformAt A (Vector3.add A (Vector3.add A c (slide A n (horizontal A d)))
          (vertical A d))) = false →
      self.move A lib (some scene) c d
        = some (Vector3.add A (Vector3.add A c (slide A n (horizontal A d)))
            (vertical A d))) ∧
    (∀ (α : Type) (A : Arith α) (lib : Vector3Sqrt α) (scene : PhysicsScene α)
        (self : CharacterController α) (c d : Vector3 α) (hits : List (PhysicsHitInfo α)),
      scene.sweep self.m_rigidbody_shape (transformAt A c)
        (lib.normalisedCopy (horizontal A d)) (lib.length (horizontal A d))
        = (false, hits) →
      scene.isOverlap self.m_rigidbody_shape
        (transformAt A (Vector3.add A (Vector3.add A c (horizontal A d)) (vertical A d)))
        = false →
      self.move A lib (some scene) c d
        = some (Vector3.add A (Vector3.add A c (horizontal A d)) (vertical A d))) ∧
    (∀ (c d : Vector3 F32),
      sameVector
        (Vector3.add binary32 (Vector3.add binary32 c (horizontal binary32 d))
          (vertical binary32 d))
        (Vector3.add binary32 c d) = true) ∧
    (∀ (c d n : Vector3 ℚ),
      Vector3.add rational (Vector3.add rational c (slide rational n (horizontal rational d)))
          (vertical rational d)
        = Vector3.add rational
            (Vector3.add rational c
              (Vector3.sub rational (horizontal rational d) (alongNormal n (horizontal rational d))))
            (vertical rational d) ∧
      Vector3.add rational (Vector3.add rational c (horizontal rational d)) (vertical rational d)
        = Vector3.add rational c d) := by
  refine ⟨?_, ?_, ?_, ?_⟩
  · intro α A lib scene self c d hit rest n hs hn ho
    subst hn
    rw [move_hit_eq A lib scene self c d hit rest hs]
    simp [ho]
  · intro α A lib scene self c d hits hs ho
    rw [move_free_eq A lib scene self c d hits hs]
    simp [ho]
  · intro c d
    simp only [sameVector, Vector3.add, horizontal, vertical, binary32, Bool.and_eq_true]
    exact ⟨⟨F32.add_zero_same _, F32.add_zero_same _⟩, F32.add_zero_add_same _ _⟩
  · intro c d n
    simp only [Vector3.add, Vector3.sub, Vector3.mulScalar, Vector3.scalarMul,
      Vector3.dotProduct, slide, alongNormal, horizontal, vertical, rational, Vector3.mk.injEq]
    refine ⟨⟨?_, ?_, ?_⟩, ?_, ?_, ?_⟩ <;> ring

set_option maxRecDepth 100000 in
/-- Witness for `move_without_overlap`: a wall at `x = 2`, start at the origin.  The
displacement `(3, 0, -1)` hits the wall (normal `(-1, 0, 0)`) and `move` returns
`(-0.29999995f, 0, -1)`, that is `x = -314573 / 1048576`; the displacement
`(-1, 0, 0.5)` hits nothing and `move` returns `(-1, 0, 0.5)`. -/
theorem move_without_overlap_witness :
    exampleController.move binary32 axisSqrt (some (wallScene (F32.ofWord 0x40000000)))
        ⟨F32.zero, F32.zero, F32.zero⟩
        ⟨F32.ofWord 0x40400000, F32.zero, F32.ofWord 0xBF800000⟩
      = some ⟨F32.ofWord 0xBE9999A0, F32.zero, F32.ofWord 0xBF800000⟩ ∧
    exampleController.move binary32 axisSqrt (some (wallScene (F32.ofWord 0x40000000)))
        ⟨F32.zero, F32.zero, F32.zero⟩
        ⟨F32.ofWord 0xBF800000, F32.zero, F32.ofWord 0x3F000000⟩
      = some ⟨F32.ofWord 0xBF800000, F32.zero, F32.ofWord 0x3F000000⟩ :=
  ⟨(move_without_overlap.1 F32 binary32 axisSqrt (wallScene (F32.ofWord 0x40000000))
      exampleController ⟨F32.zero, F32.zero, F32.zero⟩
      ⟨F32.ofWord 0x40400000, F32.zero, F32.ofWord 0xBF800000⟩
      (wallHit (F32.ofWord 0x40000000)) [] ⟨F32.ofWord 0xBF800000, F32.zero, F32.zero⟩
      (by decide) (by decide) (by decide)).trans (by decide),
   (move_without_overlap.2.1 F32 binary32 axisSqrt (wallScene (F32.ofWord 0x40000000))
      exampleController ⟨F32.zero, F32.zero, F32.zero⟩
      ⟨F32.ofWord 0xBF800000, F32.zero, F32.ofWord 0x3F000000⟩ []
      (by decide) (by decide)).trans (by decide)⟩

set_option maxRecDepth 100000 in
/-- Counterexample to claim C10: a wall at `x = 2^24`, start at `(2^24, 0, 0)`,
displacement `(0.5, 0, 0)`.  The sweep reports a hit with normal `(-1, 0, 0)`, so
`n . h = -0.5` and `n.x = -1` are not zero, and the overlap test is positive; `move`
returns the starting position `(2^24, 0, 0)`.  The formula
`current_position + (0, 0, displacement.z) - 1.1 * (n . h) * n`, computed in binary32,
has `x = 16777215`. -/
theorem move_with_overlap_returns_start :
    (wallScene (F32.ofWord 0x4B800000)).sweep exampleController.m_rigidbody_shape
        (transformAt binary32 ⟨F32.ofWord 0x4B800000, F32.zero, F32.zero⟩)
        (axisSqrt.normalisedCopy (horizontal binary32 ⟨F32.ofWord 0x3F000000, F32.zero, F32.zero⟩))
        (axisSqrt.length (horizontal binary32 ⟨F32.ofWord 0x3F000000, F32.zero, F32.zero⟩))
      = (true, [wallHit (F32.ofWord 0x4B800000)]) ∧
    axisSqrt.normalisedCopy (wallHit (F32.ofWord 0x4B800000)).hit_normal
      = ⟨F32.ofWord 0xBF800000, F32.zero, F32.zero⟩ ∧
    Vector3.dotProduct binary32 ⟨F32.ofWord 0xBF800000, F32.zero, F32.zero⟩
        (horizontal binary32 ⟨F32.ofWord 0x3F000000, F32.zero, F32.zero⟩)
      = F32.ofWord 0xBF000000 ∧
    (wallScene (F32.ofWord 0x4B800000)).isOverlap exampleController.m_rigidbody_shape
        (transformAt binary32
          (Vector3.add binary32
            (Vector3.add binary32 ⟨F32.ofWord 0x4B800000, F32.zero, F32.zero⟩
              (slide binary32 ⟨F32.ofWord 0xBF800000, F32.zero, F32.zero⟩
                (horizontal binary32 ⟨F32.ofWord 0x3F000000, F32.zero, F32.zero⟩)))
            (vertical binary32 ⟨F32.ofWord 0x3F000000, F32.zero, F32.zero⟩)))
      = true ∧
    exampleController.move binary32 axisSqrt (some (wallScene (F32.ofWord 0x4B800000)))
        ⟨F32.ofWord 0x4B800000, F32.zero, F32.zero⟩
        ⟨F32.ofWord 0x3F000000, F32.zero, F32.zero⟩
      = some ⟨F32.ofWord 0x4B800000, F32.zero, F32.zero⟩ ∧
    Vector3.sub binary32
        (Vector3.add binary32 ⟨F32.ofWord 0x4B800000, F32.zero, F32.zero⟩
          (vertical binary32 ⟨F32.ofWord 0x3F000000, F32.zero, F32.zero⟩))
        (Vector3.scalarMul binary32
          (F32.mul F32.float_1_1
            (Vector3.dotProduct binary32 ⟨F32.ofWord 0xBF800000, F32.zero, F32.zero⟩
              (horizontal binary32 ⟨F32.ofWord 0x3F000000, F32.zero, F32.zero⟩)))
          ⟨F32.ofWord 0xBF800000, F32.zero, F32.zero⟩)
      = ⟨F32.ofWord 0x4B7FFFFF, F32.zero, F32.zero⟩ := by
  decide

/-- Claim C10, amended: when the final overlap test is positive the horizontal
displacement `h` is subtracted from the moved position, in the arithmetic of the
program: without a hit `move` returns `((current_position + h) + v) - h`, after a hit
with normalised normal `n` it returns
`((current_position + (h - (n . h) * n * 1.1)) + v) - h` (the first two parts, in every
arithmetic).  In exact arithmetic the first value is
`current_position + (0, 0, displacement.z)` and the second is
`current_position + (0, 0, displacement.z) - 1.1 * (n . h) * n`, whose x and y differ
from those of `current_position` exactly when `n . h` and the horizontal part of `n` are
non-zero. -/
theorem move_with_overlap :
    (∀ (α : Type) (A : Arith α) (lib : Vector3Sqrt α) (scene : PhysicsScene α)
        (self : CharacterController α) (c d : Vector3 α) (hits : List (PhysicsHitInfo α)),
      scene.sweep self.m_rigidbody_shape (transformAt A c)
        (lib.normalisedCopy (horizontal A d)) (lib.length (horizontal A d))
        = (false, hits) →
      scene.isOverlap self.m_rigidbody_shape
        (transformAt A (Vector3.add A (Vector3.add A c (horizontal A d)) (vertical A d)))
        = true →
      self.move A lib (some scene) c d
        = some (Vector3.sub A
            (Vector3.add A (Vector3.add A c (horizontal A d)) (vertical A d))
            (horizontal A d))) ∧
    (∀ (α : Type) (A : Arith α) (lib : Vector3Sqrt α) (scene : PhysicsScene α)
        (self : CharacterController α) (c d : Vector3 α) (hit : PhysicsHitInfo α)
        (rest : List (PhysicsHitInfo α)) (n : Vector3 α),
      scene.sweep self.m_rigidbody_shape (transformAt A c)
        (lib.normalisedCopy (horizontal A d)) (lib.length (horizontal A d))
        = (true, hit :: rest) →
      lib.normalisedCopy hit.hit_normal = n →
      scene.isOverlap self.m_rigidbody_shape
        (transformAt A (Vector3.add A (Vector3.add A c (slide A n (horizontal A d)))
          (vertical A d))) = true →
      self.move A lib (some scene) c d
        = some (Vector3.sub A
            (Vector3.add A (Vector3.add A c (slide A n (horizontal A d))) (vertical A d))
            (horizontal A d))) ∧
    (∀ (c d n : Vector3 ℚ),
      Vector3.sub rational
          (Vector3.add rational (Vector3.add rational c (horizontal rational d)) (vertical rational d))
          (horizontal rational d)
        = Vector3.add rational c (vertical rational d) ∧
      Vector3.sub rational
          (Vector3.add rational (Vector3.add rational c (slide rational n (horizontal rational d)))
            (vertical rational d))
          (horizontal rational d)
        = Vector3.sub rational (Vector3.add rational c (vertical rational d))
            (alongNormal n (horizontal rational d)) ∧
      (((Vector3.sub rational (Vector3.add rational c (vertical rational d))
            (alongNormal n (horizontal rational d))).x ≠ c.x ∨
        (Vector3.sub rational (Vector3.add rational c (vertical rational d))
            (alongNormal n (horizontal rational d))).y ≠ c.y) ↔
       (Vector3.dotProduct rational n (horizontal rational d) ≠ 0 ∧ (n.x ≠ 0 ∨ n.y ≠ 0)))) := by
  refine ⟨?_, ?_, ?_⟩
  · intro α A lib scene self c d hits hs ho
    rw [move_free_eq A lib scene self c d hits hs]
    simp [ho]
  · intro α A lib scene self c d hit rest n hs hn ho
    subst hn
    rw [move_hit_eq A lib scene self c d hit rest hs]
    simp [ho]
  · intro c d n
    refine ⟨?_, ?_, ?_⟩
    · simp only [Vector3.add, Vector3.sub, horizontal, vertical, rational, Vector3.mk.injEq]
      refine ⟨?_, ?_, ?_⟩ <;> ring
    · simp only [Vector3.add, Vector3.sub, Vector3.mulScalar, Vector3.scalarMul,
        Vector3.dotProduct, slide, alongNormal, horizontal, vertical, rational,
        Vector3.mk.injEq]
      refine ⟨?_, ?_, ?_⟩ <;> ring
    · simp only [Vector3.add, Vector3.sub, Vector3.dotProduct, alongNormal, horizontal,
        vertical, rational]
      have h11 : (1.1 : ℚ) ≠ 0 := by norm_num
      constructor
      · intro h
        have hk : n.x * d.x + n.y * d.y + n.z * 0 ≠ 0 := by
          intro hk
          rcases h with h | h <;> exact h (by rw [hk]; ring)
        refine ⟨hk, ?_⟩
        by_contra hxy
        have hx : n.x = 0 := by
          by_contra hx
          exact hxy (Or.inl hx)
        have hy : n.y = 0 := by
          by_contra hy
          exact hxy (Or.inr hy)
        rcases h with h | h
        · exact h (by rw [hx]; ring)
        · exact h (by rw [hy]; ring)
      · rintro ⟨h0, hxy⟩
        rcases hxy with hx | hy
        · left
          intro h
          have h2 : (1.1 : ℚ) * (n.x * d.x + n.y * d.y + n.z * 0) * n.x = 0 := by linarith
          rcases mul_eq_zero.mp h2 with h3 | h3
          · rcases mul_eq_zero.mp h3 with h4 | h4
            · exact h11 h4
            · exact h0 h4
          · exact hx h3
        · right
          intro h
          have h2 : (1.1 : ℚ) * (n.x * d.x + n.y * d.y + n.z * 0) * n.y = 0 := by linarith
          rcases mul_eq_zero.mp h2 with h3 | h3
          · rcases mul_eq_zero.mp h3 with h4 | h4
            · exact h11 h4
            · exact h0 h4
          · exact hy h3

set_option maxRecDepth 100000 in
/-- Witness for `move_with_overlap`: a wall at `x = 2`.  From `(3, 0, 0)` the displacement
`(-0.5, 0, 1)` hits nothing, the moved position `(2.5, 0, 1)` overlaps and `move` returns
`(3, 0, 1)`.  From `(2.5, 0, 0)` the displacement `(3, 0, -1)` hits the wall (normal
`(-1, 0, 0)`), the moved position overlaps and `move` returns `(-0.8000002f, 0, -1)`. -/
theorem move_with_overlap_witness :
    exampleController.move binary32 axisSqrt (some (wallScene (F32.ofWord 0x40000000)))
        ⟨F32.ofWord 0x40400000, F32.zero, F32.zero⟩
        ⟨F32.ofWord 0xBF000000, F32.zero, F32.one⟩
      = some ⟨F32.ofWord 0x40400000, F32.zero, F32.one⟩ ∧
    exampleController.move binary32 axisSqrt (some (wallScene (F32.ofWord 0x40000000)))
        ⟨F32.ofWord 0x40200000, F32.zero, F32.zero⟩
        ⟨F32.ofWord 0x40400000, F32.zero, F32.ofWord 0xBF800000⟩
      = some ⟨F32.ofWord 0xBF4CCCD0, F32.zero, F32.ofWord 0xBF800000⟩ :=
  ⟨(move_with_overlap.1 F32 binary32 axisSqrt (wallScene (F32.ofWord 0x40000000))
      exampleController ⟨F32.ofWord 0x40400000, F32.zero, F32.zero⟩
      ⟨F32.ofWord 0xBF000000, F32.zero, F32.one⟩ []
      (by decide) (by decide)).trans (by decide),
   (move_with_overlap.2.1 F32 binary32 axisSqrt (wallScene (F32.ofWord 0x40000000))
      exampleController ⟨F32.ofWord 0x40200000, F32.zero, F32.zero⟩
      ⟨F32.ofWord 0x40400000, F32.zero, F32.ofWord 0xBF800000⟩
      (wallHit (F32.ofWord 0x40000000)) [] ⟨F32.ofWord 0xBF800000, F32.zero, F32.zero⟩
      (by decide) (by decide) (by decide)).trans (by decide)⟩

end Piccolo
